import Mathlib

/-!
Verification development for the repo-dashboard VCS abstraction core
(`src/repo_dashboard`): the two VCS backends (git / jj), the backend
selector, the per-repository summary collector, the TTL cache, the
filter engine and the batch task runner.

The Python code drives external executables (`git`, `jj`) as
subprocesses.  The embedding models every subprocess invocation as an
environment value: the stripped stdout of the command (a `String`), or
an exception (`PyExc`) when the call raises.  All parsing and control
flow that lives in the Python source is translated function by
function; comments name the Python source location of each definition.
-/

namespace RepoDashboard

/-- Exceptions that Python code in this codebase raises or catches.
`fileNotFound` models `FileNotFoundError` (backend executable missing);
`notImplemented` models `NotImplementedError`; `other` is any other
`Exception` (carrying its message).  All three are subclasses of
`Exception` in Python, so an `except Exception` handler catches each. -/
inductive PyExc where
  | fileNotFound
  | notImplemented (msg : String)
  | other (msg : String)
deriving DecidableEq, Repr

/-- `VCSType = Literal["git", "jj"]` from `vcs_protocol.py` / `models.py`. -/
inductive VCSType where
  | git
  | jj
deriving DecidableEq, Repr

/-- `RepoStatus` enum from `models.py`. -/
inductive RepoStatus where
  | ok
  | warning
  | noGit
  | noJJ
  | noGh
  | noUpstream
  | detachedHead
  | loading
deriving DecidableEq, Repr

/-- `PRInfo` dataclass from `models.py`. -/
structure PRInfo where
  number : Nat
  title : String
  url : String
  state : String
  checksStatus : Option String
deriving DecidableEq, Repr

/-- `RepoSummary` dataclass.  `models.py` in this snapshot declares
`uncommitted_count` (and no staged/unstaged/untracked fields), while
`vcs_jj.py` constructs summaries with `staged_count`, `unstaged_count`,
`untracked_count` and `has_remote` keywords, which the repository's own
tests (`tests/test_vcs_jj.py`) assert together with `uncommitted_count`.
The embedding therefore carries the union of the fields used by the two
constructors; the jj constructor sets `uncommittedCount` to the sum of
its three per-kind counts, matching the tests' expectation
(`unstaged_count == 3` together with `uncommitted_count == 3`).
Timestamps are opaque `Nat` values. -/
structure RepoSummary where
  path : String
  name : String
  vcsType : VCSType
  currentBranch : String
  aheadCount : Nat
  behindCount : Nat
  uncommittedCount : Nat
  stagedCount : Nat := 0
  unstagedCount : Nat := 0
  untrackedCount : Nat := 0
  stashCount : Nat
  worktreeCount : Nat
  prInfo : Option PRInfo := none
  lastModified : Nat
  status : RepoStatus
  hasRemote : Bool := true
  jjIsColocated : Option Bool := none
deriving DecidableEq, Repr

/-! ## Python string primitives

Helpers mirroring the Python `str` methods the source uses.  Only the
ASCII behaviour matters for the data these functions receive. -/

/-- Python `str.strip()` (whitespace trim on both ends, ASCII). -/
def pyStrip (s : String) : String :=
  String.mk
    (((s.data.dropWhile Char.isWhitespace).reverse.dropWhile
      Char.isWhitespace).reverse)

/-- Python `str.startswith(pre)`. -/
def pyStartsWith (s pre : String) : Bool :=
  pre.data.isPrefixOf s.data

/-- Python `str.lstrip("* ")`: drop leading characters that are `*` or a
space. -/
def pyLstripStarSpace (s : String) : String :=
  String.mk (s.data.dropWhile (fun c => c = '*' || c = ' '))

/-- Character-level split on `'\n'`; always returns one (possibly
empty) segment more than the number of newlines. -/
def splitNewlines : List Char → List (List Char)
  | [] => [[]]
  | c :: rest =>
    if c = '\n' then [] :: splitNewlines rest
    else
      match splitNewlines rest with
      | h :: t => (c :: h) :: t
      | [] => [[c]]

/-- Python `str.splitlines()` restricted to `\n` separators: no entry
for the text after a trailing newline, and `""` splits to `[]`. -/
def pySplitlines (s : String) : List String :=
  if s.data = [] then []
  else
    let parts := (splitNewlines s.data).map String.mk
    if s.data.getLast? = some '\n' then parts.dropLast else parts

/-- Digit run to number, e.g. `['4','2'] ↦ 42`. -/
def digitsToNat (l : List Char) : Nat :=
  l.foldl (fun acc c => acc * 10 + (c.toNat - '0'.toNat)) 0

/-- `re.search(key + r"(\d+)", s)`: scan left to right for the first
position where `key` is followed by at least one digit, and return the
maximal digit run there. -/
def searchNumAfter (key : List Char) : List Char → Option Nat
  | [] => none
  | c :: rest =>
    if key.isPrefixOf (c :: rest) then
      let ds := ((c :: rest).drop key.length).takeWhile Char.isDigit
      if ds.isEmpty then searchNumAfter key rest else some (digitsToNat ds)
    else searchNumAfter key rest

/-- Substring search on character lists. -/
def listContains (sub : List Char) : List Char → Bool
  | [] => sub.isEmpty
  | c :: rest => sub.isPrefixOf (c :: rest) || listContains sub rest

/-- Python `sub in s` (substring containment). -/
def pyContains (s sub : String) : Bool :=
  listContains sub.toList s.toList

/-- Python `Path.name`: the final path component (of a normalized path
without trailing separator, which is what discovery hands over). -/
def pathName (p : String) : String :=
  String.mk ((p.data.reverse.takeWhile (fun c => c ≠ '/')).reverse)

/-! ## `cache.py` — TTLCache

`TTLCache` stores `CacheEntry(data, timestamp)` per key in a dict and
lazily evicts on `get`.  Time is an `Int` instant (`datetime.now()` at
the moment of the call); the TTL is the fixed duration set at
construction (`timedelta(minutes=ttl_minutes)`). -/

/-- `CacheEntry` dataclass from `cache.py`. -/
structure CacheEntry (α : Type) where
  data : α
  timestamp : Int

/-- `TTLCache` from `cache.py`; the dict is modelled as a key-indexed
partial map. -/
structure TTLCache (α : Type) where
  ttl : Int
  cache : String → Option (CacheEntry α)

namespace TTLCache

/-- `TTLCache.set`: store the value with the current time. -/
def set (c : TTLCache α) (key : String) (data : α) (now : Int) : TTLCache α :=
  { c with cache := fun k => if k = key then some ⟨data, now⟩ else c.cache k }

/-- `TTLCache.get`: return the entry's data when its age is strictly
below the TTL; otherwise delete the entry and return `None`.  Returns
the value read together with the cache state after the call. -/
def get (c : TTLCache α) (key : String) (now : Int) :
    Option α × TTLCache α :=
  match c.cache key with
  | some entry =>
    if now - entry.timestamp < c.ttl then (some entry.data, c)
    else (none, { c with cache := fun k => if k = key then none else c.cache k })
  | none => (none, c)

/-- `TTLCache.clear`. -/
def clear (c : TTLCache α) : TTLCache α :=
  { c with cache := fun _ => none }

end TTLCache

/-! ## `vcs_factory.py` — backend selector

The filesystem marker checks `(repo_path / ".jj").is_dir()` and
`(repo_path / ".git").is_dir()` are environment booleans. -/

/-- `detect_vcs_type` from `vcs_factory.py`: prefer jj when `.jj`
exists (colocated repos), else git when `.git` exists, else `None`. -/
def detect_vcs_type (hasJJ hasGit : Bool) : Option VCSType :=
  if hasJJ then some .jj
  else if hasGit then some .git
  else none

/-- `get_vcs_operations` from `vcs_factory.py`: the returned operations
object is determined by the detected type; when no marker is present it
raises `ValueError(f"No VCS repository found at {repo_path}")`, modelled
as the `Except.error` carrying that message. -/
def get_vcs_operations (hasJJ hasGit : Bool) (repoPath : String) :
    Except String VCSType :=
  match detect_vcs_type hasJJ hasGit with
  | some t => .ok t
  | none => .error ("No VCS repository found at " ++ repoPath)

/-! ## `git_ops.py` — Backend-A (git)

Each `_run_git_async` call returns `stdout.decode().strip()` of the git
subprocess, or raises (`FileNotFoundError` when the executable is
missing, other `OSError`s from process creation).  An environment value
of type `Except PyExc String` stands for one such call: `.ok raw` is
the decoded stdout (the `strip` is applied by the model, as the Python
helper does), `.error e` the raised exception.  Some helpers
(`get_stash_count`, `get_worktree_count`, branch lists) consult a TTL
cache before running the command; a cache hit only changes where the
value comes from, so it is absorbed into the same environment value. -/

/-- `get_current_branch_async`: `git rev-parse --abbrev-ref HEAD`
output, or `"HEAD"` when empty. -/
def gitCurrentBranch (raw : String) : String :=
  let branch := pyStrip raw
  if branch ≠ "" then branch else "HEAD"

/-- `_is_detached_head_async`: detached iff `git symbolic-ref -q HEAD`
exits non-zero; any exception during the check is caught and counts as
detached.  The environment supplies the returncode check (`.ok b` with
`b = (returncode ≠ 0)`) or the exception. -/
def gitIsDetached (outcome : Except PyExc Bool) : Bool :=
  match outcome with
  | .ok b => b
  | .error _ => true

/-- `_parse_ahead_behind`: `re.search(r"ahead (\d+)")` and
`re.search(r"behind (\d+)")` over `git status --porcelain --branch`
output, defaulting to 0. -/
def gitParseAheadBehind (output : String) : Nat × Nat :=
  ((searchNumAfter "ahead ".toList output.toList).getD 0,
   (searchNumAfter "behind ".toList output.toList).getD 0)

/-- `_get_uncommitted_count_async`: number of `git status --porcelain`
lines (0 when the stripped output is empty). -/
def gitUncommittedCount (raw : String) : Nat :=
  let status := pyStrip raw
  if status ≠ "" then (pySplitlines status).length else 0

/-- `get_stash_count` (git): number of `git stash list` lines. -/
def gitStashCount (raw : String) : Nat :=
  let output := pyStrip raw
  if output ≠ "" then (pySplitlines output).length else 0

/-- `get_worktree_count`: `max(0, count - 1)` where `count` is the
number of `worktree ` lines in `git worktree list --porcelain` output
(natural subtraction is exactly `max(0, · - 1)`). -/
def gitWorktreeCount (raw : String) : Nat :=
  ((pySplitlines (pyStrip raw)).filter
    (fun line => pyStartsWith line "worktree ")).length - 1

/-- `_parse_status_files` from `git_ops.py`: walk porcelain status
lines; a line shorter than 3 characters is skipped; otherwise
`line[0]` is the index marker, `line[1]` the worktree marker and
`line[3:]` the filename.  `??` lines are untracked; `elif` a non-space
non-`?` index marker is staged; independently a non-space non-`?`
worktree marker is modified.  Returns `(untracked, modified, staged)`
in line order. -/
def parseStatusLines : List String → List String × List String × List String
  | [] => ([], [], [])
  | line :: rest =>
    let (u, m, s) := parseStatusLines rest
    match line.toList with
    | c0 :: c1 :: _ :: tail =>
      let filename := String.mk tail
      let m' := if c1 ≠ ' ' ∧ c1 ≠ '?' then filename :: m else m
      if c0 = '?' ∧ c1 = '?' then (filename :: u, m', s)
      else if c0 ≠ ' ' ∧ c0 ≠ '?' then (u, m', filename :: s)
      else (u, m', s)
    | _ => (u, m, s)

/-- `_parse_status_files` applied to the stripped stdout of
`git status --porcelain`, as `get_status_files_async` does. -/
def parse_status_files (output : String) :
    List String × List String × List String :=
  parseStatusLines (pySplitlines output)

/-- Status derivation in `get_repo_summary_async` (`git_ops.py`
lines 261-267): detached head wins, then the `ahead == 0 and
behind == 0` branch probes `_get_tracking_branch` and reports
`NO_UPSTREAM` when it is `None`, else the status stays `OK`. -/
def gitStatusOf (isDetached : Bool) (ahead behind : Nat)
    (tracking : Option String) : RepoStatus :=
  if isDetached then .detachedHead
  else if ahead = 0 ∧ behind = 0 then
    (if tracking = none then .noUpstream else .ok)
  else .ok

/-- Environment of one run of `get_repo_summary_async` (git): the
outcome of each concurrently gathered sub-call, plus the
`_get_tracking_branch` probe.  `lastModified` absorbs
`get_last_modified_time` (log output parse or `st_mtime` fallback),
which can raise into the gather; `tracking` is total because
`_get_tracking_branch` catches every exception and returns `None`
(also when the command output is empty). -/
structure GitCollectEnv where
  currentBranch : Except PyExc String
  isDetached : Except PyExc Bool
  statusBranch : Except PyExc String
  statusPorcelain : Except PyExc String
  lastModified : Except PyExc Nat
  stashList : Except PyExc String
  worktreeList : Except PyExc String
  tracking : Option String

/-- The `try` body of `get_repo_summary_async` (git): the
`asyncio.gather` of the seven read calls followed by status derivation
and summary construction.  `gather` propagates the first exception
raised by a sub-call; the model determinizes "first" to argument
order.  `_is_detached_head_async` catches its own exceptions, so it
never contributes one. -/
def gitCollect (path : String) (env : GitCollectEnv) :
    Except PyExc RepoSummary := do
  let currentBranchRaw ← env.currentBranch
  let statusBranchRaw ← env.statusBranch
  let statusPorcelainRaw ← env.statusPorcelain
  let lastModified ← env.lastModified
  let stashRaw ← env.stashList
  let worktreeRaw ← env.worktreeList
  let currentBranch := gitCurrentBranch currentBranchRaw
  let isDetached := gitIsDetached env.isDetached
  let (ahead, behind) := gitParseAheadBehind (pyStrip statusBranchRaw)
  let status := gitStatusOf isDetached ahead behind env.tracking
  pure {
    path := path
    name := pathName path
    vcsType := .git
    currentBranch := currentBranch
    aheadCount := ahead
    behindCount := behind
    uncommittedCount := gitUncommittedCount statusPorcelainRaw
    stashCount := gitStashCount stashRaw
    worktreeCount := gitWorktreeCount worktreeRaw
    prInfo := none
    lastModified := lastModified
    status := status
  }

/-- `get_repo_summary_async` from `git_ops.py` (lines 241-312): the
collection body wrapped in `except FileNotFoundError` (→ `NO_GIT`
summary) and `except Exception` (→ `WARNING` summary).  Total: no
exception escapes.  `nowTime` stands for `datetime.now()` used in the
fallback summaries. -/
def get_repo_summary_async (path : String) (env : GitCollectEnv)
    (nowTime : Nat) : RepoSummary :=
  match gitCollect path env with
  | .ok summary => summary
  | .error .fileNotFound =>
    { path := path, name := pathName path, vcsType := .git
      currentBranch := "?", aheadCount := 0, behindCount := 0
      uncommittedCount := 0, stashCount := 0, worktreeCount := 0
      prInfo := none, lastModified := nowTime, status := .noGit }
  | .error _ =>
    { path := path, name := pathName path, vcsType := .git
      currentBranch := "?", aheadCount := 0, behindCount := 0
      uncommittedCount := 0, stashCount := 0, worktreeCount := 0
      prInfo := none, lastModified := nowTime, status := .warning }

/-! ## `vcs_git.py` — `GitOperations.cleanup_merged_branches`

The operation is driven by three git commands:
`git rev-parse --verify main` (does `main` resolve), `git branch
--merged <main_branch>` (whose stdout lists merged local branches, the
checked-out one prefixed with `* `), and one `git branch -d <name>` per
candidate.  The repository state tracks the local branch set and the
checked-out branch. -/

/-- Local-branch state of one git repository. -/
structure GitRepoState where
  branches : List String
  current : String
deriving DecidableEq, Repr

/-- Effect of `git branch -d b`: git refuses to delete the currently
checked-out branch and a name that is not a local branch (non-zero
exit); otherwise the branch is removed.  Real git additionally refuses
when the branch is not fully merged into its upstream/HEAD; the model
lets every non-checked-out existing branch be deleted, which is the
maximal (least safe) behaviour, so any safety property proved here
covers the stricter real tool. -/
def gitBranchDelete (st : GitRepoState) (b : String) : GitRepoState × Bool :=
  if b = st.current then (st, false)
  else if st.branches.contains b then
    ({ st with branches := st.branches.erase b }, true)
  else (st, false)

/-- The deletion loop of `cleanup_merged_branches`: try each candidate
in order, recording deleted and failed names; a single failure never
aborts the loop. -/
def cleanupDeleteLoop :
    GitRepoState → List String → GitRepoState × List String × List String
  | st, [] => (st, [], [])
  | st, b :: rest =>
    let d := gitBranchDelete st b
    let r := cleanupDeleteLoop d.1 rest
    if d.2 then (r.1, b :: r.2.1, r.2.2)
    else (r.1, r.2.1, b :: r.2.2)

/-- Candidate extraction in `cleanup_merged_branches` (`vcs_git.py`
lines 175-179): from the `git branch --merged` stdout take each
non-blank line, strip it, `lstrip("* ")` it, and keep it unless the
result is the trunk name, `master`, or `HEAD`. -/
def cleanupCandidates (mainBranch : String) (mergedRaw : String) :
    List String :=
  (pySplitlines mergedRaw).filterMap (fun b =>
    let t := pyStrip b
    if t ≠ "" ∧ pyLstripStarSpace t ∉ [mainBranch, "master", "HEAD"] then
      some (pyLstripStarSpace t)
    else none)

/-- `GitOperations.cleanup_merged_branches` (`vcs_git.py` lines
143-212): pick the trunk (`main` when `git rev-parse --verify main`
succeeds, else `master`), filter the merged-branch listing, delete each
candidate.  `mainVerifies` is the rev-parse outcome and `mergedRaw` the
listing's stdout; returns the final repository state with the deleted
and failed name lists (from which the reported message is built). -/
def cleanup_merged_branches (st : GitRepoState) (mainVerifies : Bool)
    (mergedRaw : String) : GitRepoState × List String × List String :=
  let mainBranch := if mainVerifies then "main" else "master"
  cleanupDeleteLoop st (cleanupCandidates mainBranch mergedRaw)

/-! ## `vcs_jj.py` — Backend-B (jj / Jujutsu)

`JJOperations` methods; `_run_jj_async` environment values follow the
same convention as the git ones (`.ok raw` = decoded stdout, `.error e`
= raised exception). -/

namespace JJOperations

/-- `get_current_branch_async`: first whitespace-separated bookmark in
the `jj log -r @ -T bookmarks` output, or `"@"` when none. -/
def currentBookmark (raw : String) : String :=
  let bookmarks := pyStrip (pyStrip raw)
  if bookmarks ≠ "" then
    String.mk (bookmarks.toList.takeWhile (fun c => ¬ c.isWhitespace))
  else "@"

/-- Non-blank line count used by the ahead/behind computation
(`len([line for line in output.splitlines() if line.strip()])`). -/
def nonblankLineCount (raw : String) : Nat :=
  ((pySplitlines (pyStrip raw)).filter (fun l => pyStrip l ≠ "")).length

/-- `JJOperations._get_ahead_behind_async` (`vcs_jj.py` lines
161-186): count the commits in `bookmark@origin..` and in
`..bookmark@origin`; the whole body is wrapped in `except Exception`,
returning `(0, 0)` on any raise.  `aheadOut` / `behindOut` are the two
command outcomes. -/
def getAheadBehindAsync (aheadOut behindOut : Except PyExc String) :
    Nat × Nat :=
  match aheadOut with
  | .error _ => (0, 0)
  | .ok t1 =>
    match behindOut with
    | .error _ => (0, 0)
    | .ok t2 => (nonblankLineCount t1, nonblankLineCount t2)

/-- `JJOperations._check_tracking_exists`: scan `jj bookmark list`
output for the first line whose stripped text starts with the bookmark
name; the bookmark tracks a remote iff that line contains both `:` and
`@origin`.  Every exception is caught and yields `False`. -/
def checkTrackingExists (listOut : Except PyExc String) (bookmark : String) :
    Bool :=
  match listOut with
  | .error _ => false
  | .ok raw =>
    match (pySplitlines (pyStrip raw)).find?
        (fun line => pyStartsWith (pyStrip line) bookmark) with
    | some line => pyContains line ":" && pyContains line "@origin"
    | none => false

/-- `JJOperations._get_status_counts_async`: `(staged, unstaged,
untracked)` from `jj status` output — `(0, 0, 0)` unless some line
starts with `Working copy changes:`, else unstaged = number of lines
starting with `A `/`M `/`D `/`R `, staged and untracked always 0. -/
def statusCounts (raw : String) : Nat × Nat × Nat :=
  let lines := pySplitlines (pyStrip raw)
  if (lines.filter (fun l => pyStartsWith l "Working copy changes:")).isEmpty then
    (0, 0, 0)
  else
    (0, (lines.filter (fun l =>
      pyStartsWith l "A " || pyStartsWith l "M " ||
      pyStartsWith l "D " || pyStartsWith l "R ")).length, 0)

/-- `JJOperations.get_worktree_count`: number of `jj workspace list`
lines that are non-blank and do not start with `default@`. -/
def worktreeCount (raw : String) : Nat :=
  ((pySplitlines (pyStrip raw)).filter
    (fun line => pyStrip line ≠ "" && ! pyStartsWith line "default@")).length

/-- Status and `has_remote` derivation in
`JJOperations.get_repo_summary_async` (`vcs_jj.py` lines 296-305):
`NO_UPSTREAM` only for a named bookmark with `ahead == behind == 0` and
no tracking remote; an anonymous head (`"@"`) skips both probes and
leaves the status `OK`. -/
def statusOf (cur : String) (ahead behind : Nat) (trackingExists : Bool) :
    RepoStatus × Bool :=
  if ahead = 0 ∧ behind = 0 ∧ cur ≠ "@" then
    (if trackingExists then (.ok, true) else (.noUpstream, false))
  else if cur ≠ "@" then (.ok, trackingExists)
  else (.ok, true)

/-- Environment of one run of `JJOperations.get_repo_summary_async`:
outcomes of the sequentially awaited jj commands.  `lastModifiedResult`
absorbs the inner `try` around the `committer_date` lookup, which
catches every exception and always yields some timestamp;
`isColocated` is the `.git`-directory check. -/
structure CollectEnv where
  currentBookmark : Except PyExc String
  aheadOut : Except PyExc String
  behindOut : Except PyExc String
  statusOut : Except PyExc String
  worktreeOut : Except PyExc String
  lastModifiedResult : Nat
  bookmarkListOut : Except PyExc String
  isColocated : Bool

/-- The `try` body of `JJOperations.get_repo_summary_async`: the
sequential awaits, status derivation, and summary construction.  The
snapshot's `models.py` dataclass lacks the `staged_count` /
`unstaged_count` / `untracked_count` keywords this constructor passes
(see `RepoSummary`); `uncommittedCount` is their sum, as the
repository's tests assert. -/
def collect (path : String) (env : CollectEnv) : Except PyExc RepoSummary := do
  let currentRaw ← env.currentBookmark
  let cur := currentBookmark currentRaw
  let (ahead, behind) := getAheadBehindAsync env.aheadOut env.behindOut
  let statusRaw ← env.statusOut
  let (staged, unstaged, untracked) := statusCounts statusRaw
  let worktreeRaw ← env.worktreeOut
  let (status, hasRemote) :=
    statusOf cur ahead behind (checkTrackingExists env.bookmarkListOut cur)
  pure {
    path := path
    name := pathName path
    vcsType := .jj
    currentBranch := cur
    aheadCount := ahead
    behindCount := behind
    stagedCount := staged
    unstagedCount := unstaged
    untrackedCount := untracked
    uncommittedCount := staged + unstaged + untracked
    stashCount := 0
    worktreeCount := worktreeCount worktreeRaw
    prInfo := none
    lastModified := env.lastModifiedResult
    status := status
    hasRemote := hasRemote
    jjIsColocated := some env.isColocated
  }

/-- `JJOperations.get_repo_summary_async` (`vcs_jj.py` lines 282-360):
the collection body wrapped in `except FileNotFoundError` (→ `NO_JJ`
summary) and `except Exception` (→ `WARNING` summary).  Total: no
exception escapes. -/
def get_repo_summary_async (path : String) (env : CollectEnv)
    (nowTime : Nat) : RepoSummary :=
  match collect path env with
  | .ok summary => summary
  | .error .fileNotFound =>
    { path := path, name := pathName path, vcsType := .jj
      currentBranch := "?", aheadCount := 0, behindCount := 0
      stagedCount := 0, unstagedCount := 0, untrackedCount := 0
      uncommittedCount := 0, stashCount := 0, worktreeCount := 0
      prInfo := none, lastModified := nowTime, status := .noJJ
      hasRemote := false }
  | .error _ =>
    { path := path, name := pathName path, vcsType := .jj
      currentBranch := "?", aheadCount := 0, behindCount := 0
      stagedCount := 0, unstagedCount := 0, untrackedCount := 0
      uncommittedCount := 0, stashCount := 0, worktreeCount := 0
      prInfo := none, lastModified := nowTime, status := .warning
      hasRemote := false }

/-- `JJOperations.get_stash_count` (`vcs_jj.py` line 407): always 0. -/
def get_stash_count (_repoPath : String) : Nat := 0

/-- `JJOperations.get_stash_list` (`vcs_jj.py` line 411): always empty
(entries would be the stash dicts git produces; none exist for jj). -/
def get_stash_list (_repoPath : String) : List String := []

/-- `JJOperations.get_stash_detail` (`vcs_jj.py` line 415): raises
`NotImplementedError("JJ does not have stash concept")` for every
stash name.  The (never produced) success payload is left abstract. -/
def get_stash_detail (_repoPath _stashName : String) : Except PyExc Unit :=
  .error (.notImplemented "JJ does not have stash concept")

end JJOperations

/-! ## `filters.py` — filter engine

A summaries dict is an insertion-ordered `path ↦ RepoSummary` map,
modelled as an association list; Python dict comprehensions over
`.items()` preserve that order, so each filter is a `List.filter`.
`_fuzzy_match_name`'s `SequenceMatcher(...).ratio() >= threshold` step
is floating-point difflib behaviour external to this code; it enters
the model as an abstract `ratioGE` relation on the two lowercased
strings, while the empty-search and substring fast paths are the
code's own. -/

/-- `FilterMode` enum from `models.py`. -/
inductive FilterMode where
  | all
  | ahead
  | behind
  | dirty
  | hasPR
  | hasStash
deriving DecidableEq, Repr

/-- `ActiveFilter` dataclass from `models.py`. -/
structure ActiveFilter where
  mode : FilterMode
  inverted : Bool := false
deriving DecidableEq, Repr

/-- `_get_filter_predicate` from `filters.py`. -/
def get_filter_predicate (mode : FilterMode) : RepoSummary → Bool :=
  match mode with
  | .dirty => fun s => s.aheadCount > 0 || s.uncommittedCount > 0
  | .ahead => fun s => s.aheadCount > 0
  | .behind => fun s => s.behindCount > 0
  | .hasPR => fun s => s.prInfo.isSome
  | .hasStash => fun s => s.stashCount > 0
  | _ => fun _ => true

/-- `_apply_single_filter` from `filters.py`. -/
def apply_single_filter (summaries : List (String × RepoSummary))
    (activeFilter : ActiveFilter) : List (String × RepoSummary) :=
  let predicate := get_filter_predicate activeFilter.mode
  if activeFilter.inverted then
    summaries.filter (fun p => ¬ predicate p.2)
  else
    summaries.filter (fun p => predicate p.2)

/-- `_fuzzy_match_name` from `filters.py`, with the difflib ratio
threshold comparison abstracted as `ratioGE`. -/
def fuzzy_match_name (ratioGE : String → String → Bool)
    (name searchText : String) : Bool :=
  if searchText = "" then true
  else
    let nameLower := name.toLower
    let searchLower := searchText.toLower
    if pyContains nameLower searchLower then true
    else ratioGE nameLower searchLower

/-- `filter_repos_multi` from `filters.py` (lines 38-67): AND-fold the
active filters over the summaries, then apply the search-text filter. -/
def filter_repos_multi (ratioGE : String → String → Bool)
    (summaries : List (String × RepoSummary))
    (activeFilters : List ActiveFilter) (searchText : String := "") :
    List (String × RepoSummary) :=
  let filtered :=
    if activeFilters.isEmpty then summaries
    else activeFilters.foldl apply_single_filter summaries
  if searchText ≠ "" then
    filtered.filter (fun p => fuzzy_match_name ratioGE p.2.name searchText)
  else filtered

/-! ## `batch_tasks.py` — batch task runner

`run_task` loops over the input summaries sequentially; per repository
it resolves the backend via `get_vcs_operations` (outside the `try`),
runs the task function inside `try/except Exception`, and appends a
`BatchTaskResult`.  The task function's behaviour is the environment:
for a given backend and path it returns `(success, message)` or raises
an exception with a message.  Durations come from wall-clock reads,
supplied by the environment as well.  The filesystem marker checks of
the selector are per-path environment functions. -/

/-- `BatchTaskResult` dataclass from `batch_tasks.py`. -/
structure BatchTaskResult where
  repoPath : String
  repoName : String
  success : Bool
  message : String
  durationMs : Nat
deriving DecidableEq, Repr

/-- Outcome of one `await task_fn(vcs_ops, repo.path)`. -/
inductive TaskOutcome where
  | ok (success : Bool) (message : String)
  | raised (msg : String)
deriving DecidableEq, Repr

/-- Filesystem view used by the selector: which paths have `.jj` and
`.git` marker directories. -/
structure MarkerFS where
  hasJJ : String → Bool
  hasGit : String → Bool

/-- `BatchTaskRunner.run_task` (`batch_tasks.py` lines 27-61).
`taskEnv` gives the task function's outcome per backend and path,
`durMs` the measured duration per path.  An exception from the task
call becomes a failed result with message `f"Error: {err}"`; an
exception from `get_vcs_operations` (no VCS marker at the path) is NOT
inside the `try` and propagates, aborting the loop — hence the
`Except` result type. -/
def run_task (fs : MarkerFS) (taskEnv : VCSType → String → TaskOutcome)
    (durMs : String → Nat) :
    List RepoSummary → Except String (List BatchTaskResult)
  | [] => .ok []
  | repo :: rest => do
    let vcsOps ← get_vcs_operations (fs.hasJJ repo.path) (fs.hasGit repo.path)
      repo.path
    let (success, message) :=
      match taskEnv vcsOps repo.path with
      | .ok s m => (s, m)
      | .raised err => (false, "Error: " ++ err)
    let results ← run_task fs taskEnv durMs rest
    pure ({ repoPath := repo.path, repoName := repo.name
            success := success, message := message
            durationMs := durMs repo.path } :: results)

/-! ## Sample values used by concrete witnesses and counterexamples -/

/-- Empty `TTLCache` over `Nat` payloads with a TTL of 5 time units. -/
def sampleCache : TTLCache Nat := ⟨5, fun _ => none⟩

/-- Minimal git `RepoSummary` at a given path, named by its path, as the
batch-runner input (only `path` and `name` are read by `run_task`). -/
def sampleSummary (p : String) : RepoSummary :=
  { path := p, name := p, vcsType := .git, currentBranch := "main"
    aheadCount := 0, behindCount := 0, uncommittedCount := 0
    stashCount := 0, worktreeCount := 0, lastModified := 0, status := .ok }

/-- Filesystem with no VCS markers anywhere. -/
def noMarkerFS : MarkerFS := ⟨fun _ => false, fun _ => false⟩

/-- Filesystem where every path is a git repository. -/
def allGitFS : MarkerFS := ⟨fun _ => false, fun _ => true⟩

/-- Task environment for the batch-runner witness: the repository at
path `"r2"` raises, the others succeed — the spec's 3-repo scenario. -/
def midFailTaskEnv : VCSType → String → TaskOutcome := fun _ p =>
  if p = "r2" then .raised "boom" else .ok true "Fetched successfully"

/-- Git collector environment in which every git invocation raises
`FileNotFoundError` (the executable is missing); the detached-head
probe catches its own exception. -/
def gitEnvFNF : GitCollectEnv :=
  ⟨.error .fileNotFound, .error .fileNotFound, .error .fileNotFound,
   .error .fileNotFound, .error .fileNotFound, .error .fileNotFound,
   .error .fileNotFound, none⟩

/-- Git collector environment whose first sub-call raises a generic
exception. -/
def gitEnvOther : GitCollectEnv :=
  ⟨.error (.other "boom"), .ok false, .ok "", .ok "", .ok 0, .ok "", .ok "",
   none⟩

/-- jj collector environment in which every jj invocation raises
`FileNotFoundError`. -/
def jjEnvFNF : JJOperations.CollectEnv :=
  ⟨.error .fileNotFound, .error .fileNotFound, .error .fileNotFound,
   .error .fileNotFound, .error .fileNotFound, 0, .error .fileNotFound, false⟩

/-- jj collector environment whose first sub-call raises a generic
exception. -/
def jjEnvOther : JJOperations.CollectEnv :=
  ⟨.error (.other "boom"), .ok "", .ok "", .ok "", .ok "", 0, .ok "", false⟩

/-- jj collector environment of a healthy repository whose working copy
sits on no bookmark: every command succeeds, the bookmark template
output is empty (anonymous head), there are no commits either side. -/
def jjEnvAnon : JJOperations.CollectEnv :=
  ⟨.ok "", .ok "", .ok "", .ok "", .ok "", 0, .ok "", false⟩

/-- Git collector environment with all reads succeeding, assembled from
the raw outputs; used to quantify over every successful collection. -/
def gitOkEnv (curRaw sbRaw porcRaw : String) (lm : Nat)
    (stashRaw wtRaw : String) (detOut : Except PyExc Bool)
    (tracking : Option String) : GitCollectEnv :=
  ⟨.ok curRaw, detOut, .ok sbRaw, .ok porcRaw, .ok lm, .ok stashRaw,
   .ok wtRaw, tracking⟩

/-- jj collector environment with all reads succeeding. -/
def jjOkEnv (curRaw aheadRaw behindRaw statusRaw wtRaw : String) (lm : Nat)
    (blistOut : Except PyExc String) (col : Bool) : JJOperations.CollectEnv :=
  ⟨.ok curRaw, .ok aheadRaw, .ok behindRaw, .ok statusRaw, .ok wtRaw, lm,
   blistOut, col⟩

/-! # Theorems -/

/-- helper: the two branches of `_apply_single_filter` are `List.filter`
with the (possibly negated) predicate. -/
theorem apply_single_filter_eq_filter (summaries : List (String × RepoSummary))
    (f : ActiveFilter) :
    apply_single_filter summaries f = summaries.filter
      (fun p => if f.inverted then ! get_filter_predicate f.mode p.2
                else get_filter_predicate f.mode p.2) := by
  unfold apply_single_filter
  by_cases h : f.inverted <;> simp [h]

/-- helper: applying two single filters in either order yields the same
list. -/
theorem apply_single_filter_comm (summaries : List (String × RepoSummary))
    (f1 f2 : ActiveFilter) :
    apply_single_filter (apply_single_filter summaries f1) f2 =
    apply_single_filter (apply_single_filter summaries f2) f1 := by
  simp only [apply_single_filter_eq_filter, List.filter_filter]
  exact List.filter_congr (fun p _ => Bool.and_comm _ _)

/-- C9: for every summary map, search text and pair of active filters
(inversions included), `filter_repos_multi` gives the same map whether
the two filters are applied in one order or the other — the AND
composition of filter predicates is commutative.  The difflib ratio
test inside the search match is abstracted as `ratioGE`. -/
theorem filter_repos_multi_two_filters_comm
    (ratioGE : String → String → Bool)
    (summaries : List (String × RepoSummary))
    (f1 f2 : ActiveFilter) (searchText : String) :
    filter_repos_multi ratioGE summaries [f1, f2] searchText =
    filter_repos_multi ratioGE summaries [f2, f1] searchText := by
  unfold filter_repos_multi
  simp only [List.isEmpty, List.foldl]
  rw [apply_single_filter_comm]

/-- C6: the backend selector picks jj whenever the `.jj` marker is
present (also when `.git` is present: colocated repositories), picks
git when only `.git` is present, and raises the no-repository
`ValueError` when neither marker exists. -/
theorem backend_selector_spec (hasGit : Bool) (p : String) :
    detect_vcs_type true hasGit = some .jj ∧
    detect_vcs_type false true = some .git ∧
    detect_vcs_type false false = none ∧
    get_vcs_operations false false p =
      .error ("No VCS repository found at " ++ p) :=
  ⟨rfl, rfl, rfl, rfl⟩

/-- C7: Backend-B's stash operations — the count is 0 and the list
empty unconditionally, and stash detail fails with the explicit
`NotImplementedError` for every stash name. -/
theorem jj_stash_unsupported (repoPath stashName : String) :
    JJOperations.get_stash_count repoPath = 0 ∧
    JJOperations.get_stash_list repoPath = [] ∧
    JJOperations.get_stash_detail repoPath stashName =
      .error (.notImplemented "JJ does not have stash concept") :=
  ⟨rfl, rfl, rfl⟩

/-- C10: Backend-B's ahead/behind computation returns `(0, 0)` whenever
either underlying jj command raises, and `(0, 0)` is exactly the value
of a bookmark in sync with its remote (both ranges empty) — total, so
no error distinct from the in-sync case reaches the caller. -/
theorem jj_ahead_behind_swallows_failures
    (aheadOut behindOut : Except PyExc String) :
    ((∃ e, aheadOut = .error e) ∨ (∃ e, behindOut = .error e) →
      JJOperations.getAheadBehindAsync aheadOut behindOut = (0, 0)) ∧
    JJOperations.getAheadBehindAsync (.ok "") (.ok "") = (0, 0) := by
  constructor
  · rintro (⟨e, rfl⟩ | ⟨e, rfl⟩)
    · rfl
    · cases aheadOut <;> rfl
  · decide

/-- C10 witness: a raising first command with a clean second one yields
`(0, 0)`. -/
theorem jj_ahead_behind_swallows_failures_witness :
    JJOperations.getAheadBehindAsync (.error .fileNotFound) (.ok "abc") =
      (0, 0) :=
  (jj_ahead_behind_swallows_failures _ _).1 (Or.inl ⟨.fileNotFound, rfl⟩)

/-- C3: immediately after `set(k, v)`, a `get(k)` strictly inside the
TTL window returns `v`; once the elapsed time reaches or exceeds the
TTL the same `get` returns `None` and itself removes the entry (lazy
eviction), covering both the just-under and the just-over side of the
boundary. -/
theorem ttl_cache_set_get {α : Type} (c : TTLCache α) (k : String) (v : α)
    (t0 t1 : Int) :
    (t1 - t0 < c.ttl → ((c.set k v t0).get k t1).1 = some v) ∧
    (c.ttl ≤ t1 - t0 →
      ((c.set k v t0).get k t1).1 = none ∧
      (((c.set k v t0).get k t1).2.cache k) = none) := by
  constructor
  · intro h
    simp [TTLCache.set, TTLCache.get, h]
  · intro h
    simp [TTLCache.set, TTLCache.get, not_lt.mpr h]

/-- C3 witness: in a cache with TTL 5, a value set at time 10 is
returned at time 14 (just under), while at time 15 (boundary reached)
it is absent and the entry is gone from the state that `get` returns. -/
theorem ttl_cache_set_get_witness :
    ((sampleCache.set "k" 42 10).get "k" 14).1 = some 42 ∧
    ((sampleCache.set "k" 42 10).get "k" 15).1 = none ∧
    (((sampleCache.set "k" 42 10).get "k" 15).2.cache "k") = none :=
  ⟨(ttl_cache_set_get sampleCache "k" 42 10 14).1 (by decide),
   ((ttl_cache_set_get sampleCache "k" 42 10 15).2 (by decide)).1,
   ((ttl_cache_set_get sampleCache "k" 42 10 15).2 (by decide)).2⟩

/-- C1: both summary collectors are total (their Lean type returns a
`RepoSummary`, never an exception), and at the collector boundary a
`FileNotFoundError` from the gathered reads yields the full degraded
summary — status `NO_GIT` (Backend-A) / `NO_JJ` (Backend-B), current
branch `"?"`, ahead/behind/uncommitted/stash/worktree counts all
zero — while any other exception yields a summary with status
`WARNING`. -/
theorem collector_error_boundary (p : String) (eg : GitCollectEnv)
    (ej : JJOperations.CollectEnv) (nowTime : Nat) :
    (gitCollect p eg = .error .fileNotFound →
      get_repo_summary_async p eg nowTime =
        { path := p, name := pathName p, vcsType := .git
          currentBranch := "?", aheadCount := 0, behindCount := 0
          uncommittedCount := 0, stashCount := 0, worktreeCount := 0
          prInfo := none, lastModified := nowTime, status := .noGit }) ∧
    (∀ e, gitCollect p eg = .error e → e ≠ .fileNotFound →
      (get_repo_summary_async p eg nowTime).status = .warning) ∧
    (JJOperations.collect p ej = .error .fileNotFound →
      JJOperations.get_repo_summary_async p ej nowTime =
        { path := p, name := pathName p, vcsType := .jj
          currentBranch := "?", aheadCount := 0, behindCount := 0
          stagedCount := 0, unstagedCount := 0, untrackedCount := 0
          uncommittedCount := 0, stashCount := 0, worktreeCount := 0
          prInfo := none, lastModified := nowTime, status := .noJJ
          hasRemote := false }) ∧
    (∀ e, JJOperations.collect p ej = .error e → e ≠ .fileNotFound →
      (JJOperations.get_repo_summary_async p ej nowTime).status = .warning) := by
  refine ⟨?_, ?_, ?_, ?_⟩
  · intro h
    simp [get_repo_summary_async, h]
  · intro e h hne
    cases e with
    | fileNotFound => exact absurd rfl hne
    | notImplemented m => simp [get_repo_summary_async, h]
    | other m => simp [get_repo_summary_async, h]
  · intro h
    simp [JJOperations.get_repo_summary_async, h]
  · intro e h hne
    cases e with
    | fileNotFound => exact absurd rfl hne
    | notImplemented m => simp [JJOperations.get_repo_summary_async, h]
    | other m => simp [JJOperations.get_repo_summary_async, h]

/-- C1 witness: with every backend invocation raising
`FileNotFoundError` the collectors return the `NO_GIT` / `NO_JJ`
summaries; with a generic exception they return `WARNING` summaries. -/
theorem collector_error_boundary_witness :
    get_repo_summary_async "a/r" gitEnvFNF 7 =
      { path := "a/r", name := pathName "a/r", vcsType := .git
        currentBranch := "?", aheadCount := 0, behindCount := 0
        uncommittedCount := 0, stashCount := 0, worktreeCount := 0
        prInfo := none, lastModified := 7, status := .noGit } ∧
    (get_repo_summary_async "a/r" gitEnvOther 7).status = .warning ∧
    JJOperations.get_repo_summary_async "a/r" jjEnvFNF 7 =
      { path := "a/r", name := pathName "a/r", vcsType := .jj
        currentBranch := "?", aheadCount := 0, behindCount := 0
        stagedCount := 0, unstagedCount := 0, untrackedCount := 0
        uncommittedCount := 0, stashCount := 0, worktreeCount := 0
        prInfo := none, lastModified := 7, status := .noJJ
        hasRemote := false } ∧
    (JJOperations.get_repo_summary_async "a/r" jjEnvOther 7).status =
      .warning :=
  ⟨(collector_error_boundary "a/r" gitEnvFNF jjEnvFNF 7).1 rfl,
   (collector_error_boundary "a/r" gitEnvOther jjEnvOther 7).2.1
     (.other "boom") rfl (by decide),
   (collector_error_boundary "a/r" gitEnvFNF jjEnvFNF 7).2.2.1 rfl,
   (collector_error_boundary "a/r" gitEnvOther jjEnvOther 7).2.2.2
     (.other "boom") rfl (by decide)⟩

/-- helper: `NO_UPSTREAM` characterization of the git status
derivation. -/
theorem gitStatusOf_noUpstream_iff (d : Bool) (a b : Nat)
    (t : Option String) :
    gitStatusOf d a b t = .noUpstream ↔
      d = false ∧ a = 0 ∧ b = 0 ∧ t = none := by
  unfold gitStatusOf
  cases d <;> split_ifs <;> simp_all

/-- helper: `NO_UPSTREAM` characterization of the jj status
derivation. -/
theorem jjStatusOf_noUpstream_iff (cur : String) (a b : Nat) (ex : Bool) :
    (JJOperations.statusOf cur a b ex).1 = .noUpstream ↔
      cur ≠ "@" ∧ a = 0 ∧ b = 0 ∧ ex = false := by
  unfold JJOperations.statusOf
  split_ifs <;> cases ex <;> simp_all

/-- helper: the jj status derivation never assigns `DETACHED_HEAD`; an
anonymous head (`"@"`) keeps the status `OK`. -/
theorem jjStatusOf_anon (a b : Nat) (ex : Bool) :
    (JJOperations.statusOf "@" a b ex).1 = .ok := by
  unfold JJOperations.statusOf
  split_ifs <;> simp_all

/-- C5 counterexample: a healthy Backend-B repository whose working
copy is on no bookmark (anonymous/detached head, current ref `"@"`)
gets summary status `OK`, not `DETACHED_HEAD` — the jj collector's
status derivation has no detached-head case, refuting the claim that
every detached/anonymous head yields `DETACHED_HEAD`. -/
theorem status_detached_counterexample :
    (JJOperations.get_repo_summary_async "a/r" jjEnvAnon 0).currentBranch =
      "@" ∧
    (JJOperations.get_repo_summary_async "a/r" jjEnvAnon 0).status = .ok ∧
    RepoStatus.ok ≠ RepoStatus.detachedHead :=
  ⟨by decide, by decide, by decide⟩

/-- C5 (amended): in Backend-A's collector a detached head always
yields `DETACHED_HEAD`, taking priority over the upstream probe, and
`NO_UPSTREAM` appears exactly when the head is attached, ahead and
behind are both zero, and no tracking ref is configured.  In
Backend-B's collector an anonymous head (`"@"`) never yields
`DETACHED_HEAD`: it keeps status `OK` and suppresses the upstream
probe; `NO_UPSTREAM` appears exactly when the head is a named bookmark,
ahead and behind are both zero, and the bookmark tracks no remote. -/
theorem status_derivation_amended (p curRaw sbRaw porcRaw : String)
    (lm : Nat) (stashRaw wtRaw : String) (detOut : Except PyExc Bool)
    (tracking : Option String)
    (jcurRaw jaheadRaw jbehindRaw jstatusRaw jwtRaw : String) (jlm : Nat)
    (jblist : Except PyExc String) (jcol : Bool) (nowTime : Nat) :
    (gitIsDetached detOut = true →
      (get_repo_summary_async p
        (gitOkEnv curRaw sbRaw porcRaw lm stashRaw wtRaw detOut tracking)
        nowTime).status = .detachedHead) ∧
    ((get_repo_summary_async p
        (gitOkEnv curRaw sbRaw porcRaw lm stashRaw wtRaw detOut tracking)
        nowTime).status = .noUpstream ↔
      gitIsDetached detOut = false ∧
      gitParseAheadBehind (pyStrip sbRaw) = (0, 0) ∧ tracking = none) ∧
    ((JJOperations.get_repo_summary_async p
        (jjOkEnv jcurRaw jaheadRaw jbehindRaw jstatusRaw jwtRaw jlm jblist
          jcol) nowTime).currentBranch = "@" →
      (JJOperations.get_repo_summary_async p
        (jjOkEnv jcurRaw jaheadRaw jbehindRaw jstatusRaw jwtRaw jlm jblist
          jcol) nowTime).status = .ok) ∧
    ((JJOperations.get_repo_summary_async p
        (jjOkEnv jcurRaw jaheadRaw jbehindRaw jstatusRaw jwtRaw jlm jblist
          jcol) nowTime).status = .noUpstream ↔
      JJOperations.currentBookmark jcurRaw ≠ "@" ∧
      JJOperations.getAheadBehindAsync (.ok jaheadRaw) (.ok jbehindRaw) =
        (0, 0) ∧
      JJOperations.checkTrackingExists jblist
        (JJOperations.currentBookmark jcurRaw) = false) := by
  have hg : (get_repo_summary_async p
      (gitOkEnv curRaw sbRaw porcRaw lm stashRaw wtRaw detOut tracking)
      nowTime).status =
      gitStatusOf (gitIsDetached detOut)
        (gitParseAheadBehind (pyStrip sbRaw)).1
        (gitParseAheadBehind (pyStrip sbRaw)).2 tracking := rfl
  have hjs : (JJOperations.get_repo_summary_async p
      (jjOkEnv jcurRaw jaheadRaw jbehindRaw jstatusRaw jwtRaw jlm jblist
        jcol) nowTime).status =
      (JJOperations.statusOf (JJOperations.currentBookmark jcurRaw)
        (JJOperations.getAheadBehindAsync (.ok jaheadRaw)
          (.ok jbehindRaw)).1
        (JJOperations.getAheadBehindAsync (.ok jaheadRaw)
          (.ok jbehindRaw)).2
        (JJOperations.checkTrackingExists jblist
          (JJOperations.currentBookmark jcurRaw))).1 := rfl
  have hjc : (JJOperations.get_repo_summary_async p
      (jjOkEnv jcurRaw jaheadRaw jbehindRaw jstatusRaw jwtRaw jlm jblist
        jcol) nowTime).currentBranch =
      JJOperations.currentBookmark jcurRaw := rfl
  refine ⟨?_, ?_, ?_, ?_⟩
  · intro hdet
    rw [hg, hdet]
    rfl
  · rw [hg, gitStatusOf_noUpstream_iff, Prod.ext_iff]
    tauto
  · intro hanon
    rw [hjc] at hanon
    rw [hjs, hanon, jjStatusOf_anon]
  · rw [hjs, jjStatusOf_noUpstream_iff, Prod.ext_iff]
    tauto

/-- C5 witness: a git repository whose detached-head probe reports
detachment gets `DETACHED_HEAD` even though no upstream is configured,
and a git repository with an attached head, no commits either side and
no tracking ref gets `NO_UPSTREAM`. -/
theorem status_derivation_amended_witness :
    (get_repo_summary_async "a/r"
      (gitOkEnv "main" "" "" 0 "" "" (.ok true) none) 0).status =
      .detachedHead ∧
    (get_repo_summary_async "a/r"
      (gitOkEnv "main" "" "" 0 "" "" (.ok false) none) 0).status =
      .noUpstream :=
  ⟨(status_derivation_amended "a/r" "main" "" "" 0 "" "" (.ok true) none
      "" "" "" "" "" 0 (.ok "") false 0).1 rfl,
   (status_derivation_amended "a/r" "main" "" "" 0 "" "" (.ok false) none
      "" "" "" "" "" 0 (.ok "") false 0).2.1.mpr
     ⟨rfl, by decide, rfl⟩⟩

/-- helper: line-by-line characterization of `_parse_status_files`.
Each sufficiently long line contributes its filename to the untracked
list iff both markers are `?`, to the modified list iff the worktree
marker is neither space nor `?`, and to the staged list iff the index
marker is neither space nor `?` (the `elif` after the untracked test
never masks a staged entry, since an untracked line's index marker is
`?`). -/
theorem parseStatusLines_eq (lines : List String) :
    parseStatusLines lines =
      (lines.filterMap (fun line =>
        match line.toList with
        | c0 :: c1 :: _ :: tail =>
          if c0 = '?' ∧ c1 = '?' then some (String.mk tail) else none
        | _ => none),
       lines.filterMap (fun line =>
        match line.toList with
        | _ :: c1 :: _ :: tail =>
          if c1 ≠ ' ' ∧ c1 ≠ '?' then some (String.mk tail) else none
        | _ => none),
       lines.filterMap (fun line =>
        match line.toList with
        | c0 :: _ :: _ :: tail =>
          if c0 ≠ ' ' ∧ c0 ≠ '?' then some (String.mk tail) else none
        | _ => none)) := by
  induction lines with
  | nil => rfl
  | cons line rest ih =>
    simp only [parseStatusLines, ih, List.filterMap_cons]
    rcases hl : line.toList with _ | ⟨c0, _ | ⟨c1, _ | ⟨c2, tail⟩⟩⟩ <;>
      simp only [hl] <;> split_ifs <;> simp_all

/-- C8: classification of porcelain status lines — a line is untracked
iff both markers are `?`, staged iff the index marker is present
(neither space nor `?`), modified iff the worktree marker is present
(neither space nor `?`); a path with both markers set (here `MM f`)
appears in both the staged and the modified lists. -/
theorem status_file_classification (output : String) :
    parse_status_files output =
      ((pySplitlines output).filterMap (fun line =>
        match line.toList with
        | c0 :: c1 :: _ :: tail =>
          if c0 = '?' ∧ c1 = '?' then some (String.mk tail) else none
        | _ => none),
       (pySplitlines output).filterMap (fun line =>
        match line.toList with
        | _ :: c1 :: _ :: tail =>
          if c1 ≠ ' ' ∧ c1 ≠ '?' then some (String.mk tail) else none
        | _ => none),
       (pySplitlines output).filterMap (fun line =>
        match line.toList with
        | c0 :: _ :: _ :: tail =>
          if c0 ≠ ' ' ∧ c0 ≠ '?' then some (String.mk tail) else none
        | _ => none)) ∧
    parse_status_files "MM f" = ([], ["f"], ["f"]) :=
  ⟨parseStatusLines_eq (pySplitlines output), by decide⟩

/-- helper: `git branch -d` never changes which branch is checked
out. -/
theorem gitBranchDelete_current (st : GitRepoState) (b : String) :
    (gitBranchDelete st b).1.current = st.current := by
  unfold gitBranchDelete
  split_ifs <;> rfl

/-- helper: a deletion that succeeded was not of the checked-out
branch. -/
theorem gitBranchDelete_ok_ne_current (st : GitRepoState) (b : String)
    (h : (gitBranchDelete st b).2 = true) : b ≠ st.current := by
  intro hb
  rw [gitBranchDelete, if_pos hb] at h
  exact Bool.false_ne_true h

/-- helper: a branch other than the deleted one — in particular the
checked-out branch — survives one deletion step. -/
theorem gitBranchDelete_mem (st : GitRepoState) (b a : String)
    (ha : a ∈ st.branches) (hne : a ≠ b ∨ a = st.current) :
    a ∈ (gitBranchDelete st b).1.branches := by
  unfold gitBranchDelete
  split_ifs with h1 h2
  · exact ha
  · rcases hne with h | h
    · exact List.mem_erase_of_ne h |>.mpr ha
    · exact List.mem_erase_of_ne (h ▸ fun hba => h1 hba.symm) |>.mpr ha
  · exact ha

/-- helper: the deletion loop preserves the checked-out branch name. -/
theorem cleanupDeleteLoop_current (bs : List String) (st : GitRepoState) :
    (cleanupDeleteLoop st bs).1.current = st.current := by
  induction bs generalizing st with
  | nil => rfl
  | cons b rest ih =>
    simp only [cleanupDeleteLoop]
    split_ifs <;> simpa [gitBranchDelete_current] using
      ih (gitBranchDelete st b).1

/-- helper: every branch the loop reports deleted was among the
candidates and differs from the checked-out branch (git refuses that
deletion). -/
theorem mem_deleted_cleanupDeleteLoop (bs : List String)
    (st : GitRepoState) (a : String)
    (ha : a ∈ (cleanupDeleteLoop st bs).2.1) : a ∈ bs ∧ a ≠ st.current := by
  induction bs generalizing st with
  | nil => simp [cleanupDeleteLoop] at ha
  | cons b rest ih =>
    simp only [cleanupDeleteLoop] at ha
    split_ifs at ha with hok
    · rcases List.mem_cons.mp ha with h | h
      · exact ⟨by simp [h], h ▸ gitBranchDelete_ok_ne_current st b hok⟩
      · rcases ih _ h with ⟨h1, h2⟩
        rw [gitBranchDelete_current] at h2
        exact ⟨List.mem_cons_of_mem _ h1, h2⟩
    · rcases ih _ ha with ⟨h1, h2⟩
      rw [gitBranchDelete_current] at h2
      exact ⟨List.mem_cons_of_mem _ h1, h2⟩

/-- helper: a branch that is the checked-out one, or that never appears
among the candidates, is still a local branch after the loop. -/
theorem mem_branches_cleanupDeleteLoop (bs : List String)
    (st : GitRepoState) (a : String) (ha : a ∈ st.branches)
    (hsafe : a = st.current ∨ a ∉ bs) :
    a ∈ (cleanupDeleteLoop st bs).1.branches := by
  induction bs generalizing st with
  | nil => exact ha
  | cons b rest ih =>
    simp only [cleanupDeleteLoop]
    have hstep : a ∈ (gitBranchDelete st b).1.branches := by
      apply gitBranchDelete_mem st b a ha
      rcases hsafe with h | h
      · exact Or.inr h
      · exact Or.inl (fun hab => h (by simp [hab]))
    have hsafe' : a = (gitBranchDelete st b).1.current ∨ a ∉ rest := by
      rcases hsafe with h | h
      · exact Or.inl (by rw [gitBranchDelete_current]; exact h)
      · exact Or.inr (fun hr => h (List.mem_cons_of_mem _ hr))
    split_ifs <;> exact ih (gitBranchDelete st b).1 hstep hsafe'

/-- helper: every candidate name produced from the merged-branch
listing differs from the trunk name (and from `master` and `HEAD`). -/
theorem mem_cleanupCandidates (mainBranch raw a : String)
    (ha : a ∈ cleanupCandidates mainBranch raw) :
    a ≠ mainBranch ∧ a ≠ "master" ∧ a ≠ "HEAD" := by
  simp only [cleanupCandidates, List.mem_filterMap] at ha
  obtain ⟨b, _, hfb⟩ := ha
  split_ifs at hfb with hcond
  cases hfb
  simpa using hcond.2

/-- C4: `cleanup_merged_branches` never deletes the trunk branch
(`main`, falling back to `master` when `main` does not verify) and
never deletes the currently checked-out branch, for every repository
state and every merged-branch listing — including listings naming the
trunk or the checked-out branch: neither name is ever reported deleted,
and both survive in the local branch set. -/
theorem cleanup_preserves_trunk_and_current (st : GitRepoState)
    (mainVerifies : Bool) (mergedRaw : String) :
    (if mainVerifies then "main" else "master") ∉
      (cleanup_merged_branches st mainVerifies mergedRaw).2.1 ∧
    st.current ∉ (cleanup_merged_branches st mainVerifies mergedRaw).2.1 ∧
    ((if mainVerifies then "main" else "master") ∈ st.branches →
      (if mainVerifies then "main" else "master") ∈
        (cleanup_merged_branches st mainVerifies mergedRaw).1.branches) ∧
    (st.current ∈ st.branches →
      st.current ∈
        (cleanup_merged_branches st mainVerifies mergedRaw).1.branches) := by
  unfold cleanup_merged_branches
  refine ⟨?_, ?_, ?_, ?_⟩
  · intro hmem
    have h1 := (mem_deleted_cleanupDeleteLoop _ _ _ hmem).1
    exact (mem_cleanupCandidates _ _ _ h1).1 rfl
  · intro hmem
    exact (mem_deleted_cleanupDeleteLoop _ _ _ hmem).2 rfl
  · intro hb
    apply mem_branches_cleanupDeleteLoop _ _ _ hb
    exact Or.inr (fun hc => (mem_cleanupCandidates _ _ _ hc).1 rfl)
  · intro hb
    exact mem_branches_cleanupDeleteLoop _ _ _ hb (Or.inl rfl)

/-- C4 witness: in a repository on branch `cur` with trunk `main`, a
merged listing naming `feat`, the checked-out `cur` and `main` itself
leads to neither `main` nor `cur` being deleted, and both remain local
branches. -/
theorem cleanup_preserves_trunk_and_current_witness :
    "main" ∉ (cleanup_merged_branches ⟨["main", "feat", "cur"], "cur"⟩ true
      "  feat\n* cur\n  main").2.1 ∧
    "cur" ∉ (cleanup_merged_branches ⟨["main", "feat", "cur"], "cur"⟩ true
      "  feat\n* cur\n  main").2.1 ∧
    "main" ∈ (cleanup_merged_branches ⟨["main", "feat", "cur"], "cur"⟩ true
      "  feat\n* cur\n  main").1.branches ∧
    "cur" ∈ (cleanup_merged_branches ⟨["main", "feat", "cur"], "cur"⟩ true
      "  feat\n* cur\n  main").1.branches :=
  ⟨(cleanup_preserves_trunk_and_current ⟨["main", "feat", "cur"], "cur"⟩
      true "  feat\n* cur\n  main").1,
   (cleanup_preserves_trunk_and_current ⟨["main", "feat", "cur"], "cur"⟩
      true "  feat\n* cur\n  main").2.1,
   (cleanup_preserves_trunk_and_current ⟨["main", "feat", "cur"], "cur"⟩
      true "  feat\n* cur\n  main").2.2.1 (by decide),
   (cleanup_preserves_trunk_and_current ⟨["main", "feat", "cur"], "cur"⟩
      true "  feat\n* cur\n  main").2.2.2 (by decide)⟩

/-- C2 counterexample: with the fetch-all task succeeding everywhere,
a single-repository input whose path carries neither VCS marker makes
`run_task` raise the selector's `ValueError` — `get_vcs_operations` is
called outside the `try` block — so the run aborts with no result list
instead of returning one result for the repository. -/
theorem run_task_counterexample :
    run_task noMarkerFS (fun _ _ => .ok true "Fetched successfully")
      (fun _ => 0) [sampleSummary "r1"] =
      .error "No VCS repository found at r1" := rfl

/-- helper: bind on a successful `Except` reduces to the
continuation. -/
theorem exceptBindOk {ε α β : Type} (a : α) (f : α → Except ε β) :
    (Except.ok (ε := ε) a >>= f) = f a := rfl

/-- C2 (amended): when every input repository's path resolves to a
backend, `run_task` returns exactly one `BatchTaskResult` per input
repository, in input order, carrying that repository's path and name;
a task-function exception on one repository becomes a `success = false`
result whose message carries the error text and does not abort the
rest.  When some path resolves to no backend, however, the selector's
exception escapes `run_task` and aborts the run (see the
counterexample). -/
theorem run_task_per_repo_results (fs : MarkerFS)
    (taskEnv : VCSType → String → TaskOutcome) (durMs : String → Nat)
    (repos : List RepoSummary)
    (h : ∀ r ∈ repos,
      (detect_vcs_type (fs.hasJJ r.path) (fs.hasGit r.path)).isSome) :
    ∃ results, run_task fs taskEnv durMs repos = .ok results ∧
      results.length = repos.length ∧
      List.Forall₂ (fun (repo : RepoSummary) (res : BatchTaskResult) =>
        res.repoPath = repo.path ∧ res.repoName = repo.name ∧
        ∀ vt err,
          detect_vcs_type (fs.hasJJ repo.path) (fs.hasGit repo.path) =
            some vt →
          taskEnv vt repo.path = .raised err →
          res.success = false ∧ res.message = "Error: " ++ err)
        repos results := by
  induction repos with
  | nil => exact ⟨[], rfl, rfl, List.Forall₂.nil⟩
  | cons repo rest ih =>
    obtain ⟨vt, hvt⟩ := Option.isSome_iff_exists.mp
      (h repo (List.mem_cons_self _ _))
    obtain ⟨results, heq, hlen, hfa⟩ :=
      ih (fun r hr => h r (List.mem_cons_of_mem _ hr))
    have hops : get_vcs_operations (fs.hasJJ repo.path)
        (fs.hasGit repo.path) repo.path = .ok vt := by
      rw [get_vcs_operations, hvt]
    cases hcase : taskEnv vt repo.path with
    | ok s m =>
      refine ⟨⟨repo.path, repo.name, s, m, durMs repo.path⟩ :: results,
        ?_, by simp [hlen], List.Forall₂.cons ⟨rfl, rfl, ?_⟩ hfa⟩
      · show (get_vcs_operations (fs.hasJJ repo.path) (fs.hasGit repo.path)
            repo.path >>= _) = _
        rw [hops, exceptBindOk]
        show (run_task fs taskEnv durMs rest >>= _) = _
        rw [heq, exceptBindOk, hcase]
        rfl
      · intro vt' err hvt' herr
        rw [hvt] at hvt'
        cases hvt'
        rw [hcase] at herr
        cases herr
    | raised e =>
      refine ⟨⟨repo.path, repo.name, false, "Error: " ++ e,
          durMs repo.path⟩ :: results,
        ?_, by simp [hlen], List.Forall₂.cons ⟨rfl, rfl, ?_⟩ hfa⟩
      · show (get_vcs_operations (fs.hasJJ repo.path) (fs.hasGit repo.path)
            repo.path >>= _) = _
        rw [hops, exceptBindOk]
        show (run_task fs taskEnv durMs rest >>= _) = _
        rw [heq, exceptBindOk, hcase]
        rfl
      · intro vt' err hvt' herr
        rw [hvt] at hvt'
        cases hvt'
        rw [hcase] at herr
        cases herr
        exact ⟨rfl, rfl⟩

/-- C2 witness: the spec's three-repository scenario — all paths are
git repositories, fetch-all raises on the middle repository `r2` — one
result per repository in input order, with paths, names, and the
middle failure converted rather than aborting. -/
theorem run_task_per_repo_results_witness :
    ∃ results, run_task allGitFS midFailTaskEnv (fun _ => 0)
        [sampleSummary "r1", sampleSummary "r2", sampleSummary "r3"] =
        .ok results ∧
      results.length =
        [sampleSummary "r1", sampleSummary "r2",
          sampleSummary "r3"].length ∧
      List.Forall₂ (fun (repo : RepoSummary) (res : BatchTaskResult) =>
        res.repoPath = repo.path ∧ res.repoName = repo.name ∧
        ∀ vt err,
          detect_vcs_type (allGitFS.hasJJ repo.path)
            (allGitFS.hasGit repo.path) = some vt →
          midFailTaskEnv vt repo.path = .raised err →
          res.success = false ∧ res.message = "Error: " ++ err)
        [sampleSummary "r1", sampleSummary "r2", sampleSummary "r3"]
        results :=
  run_task_per_repo_results allGitFS midFailTaskEnv (fun _ => 0)
    [sampleSummary "r1", sampleSummary "r2", sampleSummary "r3"]
    (by decide)

end RepoDashboard
